import Mathlib

/-!
Verification development for a small HTTP routing and dispatch layer.

The repository under verification is a Go web application built on a
routing framework.  The repository's own code consists of a server entry
point (`main.go`) and a test file exercising the framework.  The routing
kernel itself (path matching, dispatch, middleware chaining, body-decoder
dispatch, the not-found fallback) lives in the framework and is therefore
modelled here from the specification; the handlers, the error-handler
configuration, the route registrations and the concrete requests are
translated from the repository's source.
-/

namespace GolangFiber

/-- Parameter bindings extracted by the path matcher. -/
abbrev Params := List (String × String)

/-- An HTTP request, as the handlers of this repository observe it:
method, path, decoded query parameters, declared content type and raw body. -/
structure Request where
  method : String
  path : String
  query : List (String × String)
  contentType : String
  body : String

/-- An HTTP response: status code and body. -/
structure Response where
  status : Nat
  body : String
deriving DecidableEq

/-- Split a string at every occurrence of a separator character.
Splitting "/user/1" at the path separator gives ["", "user", "1"],
matching the behaviour of splitting by "/" in the source language. -/
def splitCharAux (sep : Char) : List Char → List Char → List String
  | [], acc => [String.mk acc.reverse]
  | c :: cs, acc =>
    if c = sep then String.mk acc.reverse :: splitCharAux sep cs []
    else splitCharAux sep cs (c :: acc)

/-- Split a string by a separator character. -/
def splitChar (sep : Char) (s : String) : List String :=
  splitCharAux sep s.data []

/-- Split a path (or a route pattern) into segments at the path separator. -/
def splitPath (s : String) : List String :=
  splitChar '/' s

/-- A pattern segment is a named parameter when it starts with the
parameter marker, a colon. -/
def isParam (seg : String) : Bool :=
  match seg.data with
  | ':' :: _ => true
  | _ => false

/-- The name of a parameter segment: the segment without its leading colon. -/
def paramName (seg : String) : String :=
  String.mk seg.data.tail

/-- Modelled from the spec: the segment-level matcher of the Path Matcher
(the framework's matcher is not part of this repository's source).  Segment
counts must be equal; a parameter segment matches any non-empty literal
segment and binds it under its name; a literal segment must match exactly
(case-sensitive).  Returns the parameter bindings on success. -/
def segMatch : List String → List String → Option Params
  | [], [] => some []
  | p :: ps, s :: ss =>
    if isParam p then
      if s = "" then none
      else (segMatch ps ss).map (fun bs => (paramName p, s) :: bs)
    else if p = s then segMatch ps ss
    else none
  | _, _ => none

/-- Modelled from the spec: the Path Matcher.  Both the registered pattern
and the incoming path are split into segments by the path separator and
matched segment-wise; whitespace inside a segment is not a delimiter, the
segment stays a single opaque unit. -/
def matchPattern (pattern path : String) : Option Params :=
  segMatch (splitPath pattern) (splitPath path)

/-- A registered route: method, path pattern and handler.  A handler
either produces a response or fails with an error message. -/
structure Route where
  method : String
  pattern : String
  handler : Request → Params → Except String Response

/-- Modelled from the spec: the Router's lookup.  The first registered
route whose method matches exactly and whose pattern matches the path via
the Path Matcher wins (registration order). -/
def findRoute : List Route → Request → Option (Route × Params)
  | [], _ => none
  | r :: rs, req =>
    if r.method = req.method then
      match matchPattern r.pattern req.path with
      | some bs => some (r, bs)
      | none => findRoute rs req
    else findRoute rs req

/-- Modelled from the spec: the terminal not-found response produced when
no route matches (status 404, empty body). -/
def notFoundResponse : Response :=
  { status := 404, body := "" }

/-- Turn a handler outcome into the final response: a successful handler
response is sent as is, an error is converted exactly once by the global
error boundary. -/
def finalize (boundary : String → Response) : Except String Response → Response
  | Except.ok resp => resp
  | Except.error e => boundary e

/-- Modelled from the spec: per-request dispatch.  Find the first matching
route; with no match return the terminal not-found response without
touching the error boundary; on a match run the handler with the extracted
parameter bindings and apply the error boundary to a failure. -/
def dispatch (boundary : String → Response) (routes : List Route) (req : Request) : Response :=
  match findRoute routes req with
  | none => notFoundResponse
  | some (r, bs) => finalize boundary (r.handler req bs)

/-- The global ErrorHandler installed in the source's fiber.Config:
it sets status 500 and sends "Error: " followed by the error's message. -/
def errorHandler (msg : String) : Response :=
  { status := 500, body := "Error: " ++ msg }

/-- Build a request with empty query, content type and body. -/
def mkReq (m p : String) : Request :=
  { method := m, path := p, query := [], contentType := "", body := "" }

/-- The query accessor used by the source's GET /hello handler.
Modelled from the spec: an absent query parameter yields the declared
default value. -/
def queryDefault (req : Request) (name dflt : String) : String :=
  match List.lookup name req.query with
  | some v => v
  | none => dflt

/-- Handler of GET /hello from the source: reads query parameter "name"
with default "Guest" and sends "Hello " followed by it. -/
def helloHandler (req : Request) (_ : Params) : Except String Response :=
  Except.ok { status := 200, body := "Hello " ++ queryDefault req "name" "Guest" }

/-- The GET /hello route from the source. -/
def helloRoute : Route :=
  { method := "GET", pattern := "/hello", handler := helloHandler }

/-- A GET /hello request carrying the given query parameters. -/
def helloReq (q : List (String × String)) : Request :=
  { method := "GET", path := "/hello", query := q, contentType := "", body := "" }

/-- Handler of GET /user/:userId/orders/:orderId from the source: reads
both path parameters and sends "Get Order <orderId> From <userId>". -/
def orderHandler (_ : Request) (ps : Params) : Except String Response :=
  Except.ok { status := 200,
              body := "Get Order " ++ (List.lookup "orderId" ps).getD ""
                        ++ " From " ++ (List.lookup "userId" ps).getD "" }

/-- The parameterized route from the source. -/
def orderRoute : Route :=
  { method := "GET", pattern := "/user/:userId/orders/:orderId", handler := orderHandler }

/-- Handler of GET /error from the source: it always fails with "Ups". -/
def errorRouteHandler (_ : Request) (_ : Params) : Except String Response :=
  Except.error "Ups"

/-- The GET /error route from the source. -/
def errorRoute : Route :=
  { method := "GET", pattern := "/error", handler := errorRouteHandler }

/-- Skip blanks (space, tab, carriage return, newline) at the front of a
character list. -/
def skipWs : List Char → List Char
  | c :: cs =>
    if c = ' ' ∨ c = '\t' ∨ c = '\n' ∨ c = '\r' then skipWs cs else c :: cs
  | [] => []

/-- Read characters up to (and consuming) a stop character; fails when the
stop character never occurs. -/
def readUntil (stop : Char) : List Char → Option (List Char × List Char)
  | [] => none
  | c :: cs =>
    if c = stop then some ([], cs)
    else
      match readUntil stop cs with
      | some (pre, post) => some (c :: pre, post)
      | none => none

/-- Read a double-quoted string literal (the request bodies of this
repository contain no escape sequences). -/
def jsonString : List Char → Option (String × List Char)
  | '"' :: cs =>
    match readUntil '"' cs with
    | some (pre, post) => some (String.mk pre, post)
    | none => none
  | _ => none

/-- Modelled from the spec: the member list of a flat JSON object with
string values, as the JSON decoder of the Content Decoder Dispatch
produces it (the JSON library is not part of this repository's source).
The fuel argument bounds recursion depth. -/
def jsonMembers : Nat → List Char → Option (List (String × String))
  | 0, _ => none
  | fuel + 1, cs =>
    match skipWs cs with
    | '\x7d' :: _ => some []
    | cs₁ =>
      match jsonString cs₁ with
      | none => none
      | some (k, rest) =>
        match skipWs rest with
        | ':' :: rest₁ =>
          match jsonString (skipWs rest₁) with
          | none => none
          | some (v, rest₂) =>
            match skipWs rest₂ with
            | ',' :: rest₃ => (jsonMembers fuel rest₃).map (fun kvs => (k, v) :: kvs)
            | '\x7d' :: _ => some [(k, v)]
            | _ => none
        | _ => none

/-- Modelled from the spec: JSON decode of a flat object with string
values into a key-to-value list; malformed input fails. -/
def jsonParse (s : String) : Option (List (String × String)) :=
  match skipWs s.data with
  | '\x7b' :: cs => jsonMembers (cs.length + 1) cs
  | _ => none

/-- Decode a form-urlencoded value: a plus sign stands for a space. -/
def plusDecode (s : String) : String :=
  String.mk (s.data.map (fun c => if c = '+' then ' ' else c))

/-- One key=value pair of a form-urlencoded body. -/
def formPair (s : String) : String × String :=
  match splitChar '=' s with
  | [k, v] => (k, plusDecode v)
  | _ => (s, "")

/-- Modelled from the spec: form-urlencoded decode into a key-to-value
list (pairs separated by ampersands). -/
def formParse (s : String) : Option (List (String × String)) :=
  some ((splitChar '&' s).map formPair)

/-- Read one XML child element "<tag>text</tag>", returning the tag name
paired with its text content. -/
def xmlChild (cs : List Char) : Option ((String × String) × List Char) :=
  match cs with
  | '<' :: rest =>
    match readUntil '>' rest with
    | none => none
    | some (tag, rest₁) =>
      match readUntil '<' rest₁ with
      | none => none
      | some (txt, rest₂) =>
        match rest₂ with
        | '/' :: rest₃ =>
          match readUntil '>' rest₃ with
          | none => none
          | some (ctag, rest₄) =>
            if ctag = tag then some ((String.mk tag, String.mk txt), rest₄) else none
        | _ => none
  | _ => none

/-- Modelled from the spec: the children of the XML root element, element
text content mapped by tag name.  The fuel argument bounds recursion. -/
def xmlChildren : Nat → List Char → Option (List (String × String))
  | 0, _ => none
  | fuel + 1, cs =>
    match skipWs cs with
    | '<' :: '/' :: _ => some []
    | cs₁ =>
      match xmlChild cs₁ with
      | none => none
      | some (kv, rest) => (xmlChildren fuel rest).map (fun kvs => kv :: kvs)

/-- Modelled from the spec: XML decode into the same structured
key-to-value shape as the other decoders (element text content mapped by
tag name under the root element). -/
def xmlParse (s : String) : Option (List (String × String)) :=
  match skipWs s.data with
  | '<' :: rest =>
    match readUntil '>' rest with
    | none => none
    | some (_, rest₁) => xmlChildren (s.length + 1) rest₁
  | _ => none

/-- Modelled from the spec: the Content Decoder Dispatch table.  JSON,
form-urlencoded and XML bodies decode into the same structured
key-to-value representation; an unknown content type fails.  (The
multipart branch of the spec's table is exercised nowhere by the claims
and is left out.) -/
def decodeBody (contentType body : String) : Option (List (String × String)) :=
  if contentType = "application/json" then jsonParse body
  else if contentType = "application/x-www-form-urlencoded" then formParse body
  else if contentType = "application/xml" ∨ contentType = "text/xml" then xmlParse body
  else none

/-- Modelled from the spec: a DecodeError carries the content type and an
underlying cause. -/
def decodeError (contentType cause : String) : String :=
  "DecodeError " ++ contentType ++ ": " ++ cause

/-- Handler of POST /login from the source: unmarshal the JSON body; a
failure is returned as the handler's error, otherwise respond
"Login <username> success". -/
def loginHandler (req : Request) (_ : Params) : Except String Response :=
  match jsonParse req.body with
  | none => Except.error (decodeError "application/json" "invalid JSON body")
  | some kvs =>
    Except.ok { status := 200, body := "Login " ++ (List.lookup "username" kvs).getD "" ++ " success" }

/-- The POST /login route from the source. -/
def loginRoute : Route :=
  { method := "POST", pattern := "/login", handler := loginHandler }

/-- Handler of POST /register from the source: decode the body according
to its declared content type; a failure is returned as the handler's
error, otherwise respond "Register <username> success". -/
def registerHandler (req : Request) (_ : Params) : Except String Response :=
  match decodeBody req.contentType req.body with
  | none => Except.error (decodeError req.contentType "malformed body")
  | some kvs =>
    Except.ok { status := 200,
                body := "Register " ++ (List.lookup "username" kvs).getD "" ++ " success" }

/-- The POST /register route from the source. -/
def registerRoute : Route :=
  { method := "POST", pattern := "/register", handler := registerHandler }

/-- A POST request to the given path with declared content type and body. -/
def postReq (p ct body : String) : Request :=
  { method := "POST", path := p, query := [], contentType := ct, body := body }

/-- The JSON register body from the source test. -/
def jsonRegisterBody : String :=
  "\x7b\"username\":\"Roni\",\"password\":\"rahasia\",\"name\":\"Roni Purwanto\"\x7d"

/-- The form-urlencoded register body from the source test. -/
def formRegisterBody : String :=
  "username=Roni&password=rahasia&name=Roni+Purwanto"

/-- The XML register body from the source test (a raw string with
newlines and tabs). -/
def xmlRegisterBody : String :=
  "\n\t<RegisterRequest>\n\t\t<username>Roni</username>\n\t\t<password>Rahasia</password>\n\t\t<name>Roni Purwanto</name>\n\t</RegisterRequest>\n\t"

/-- The shared handler named "hanlder" in the source's routing-group test:
it sends "Hello World". -/
def hanlder (_ : Request) (_ : Params) : Except String Response :=
  Except.ok { status := 200, body := "Hello World" }

/-- Modelled from the spec: registering a GET route through a RouteGroup
prepends the group's path prefix to the route's sub-path. -/
def groupGet (prefixPath sub : String) (h : Request → Params → Except String Response) : Route :=
  { method := "GET", pattern := prefixPath ++ sub, handler := h }

/-- The four routes registered through the "/api" and "/web" groups in the
source's routing-group test, in registration order. -/
def groupRoutes : List Route :=
  [groupGet "/api" "/hello" hanlder,
   groupGet "/api" "/world" hanlder,
   groupGet "/web" "/hello" hanlder,
   groupGet "/web" "/world" hanlder]

/-- Is one character list a prefix of another? -/
def isPrefixOfChars : List Char → List Char → Bool
  | [], _ => true
  | _ :: _, [] => false
  | c :: cs, d :: ds => c = d && isPrefixOfChars cs ds

/-- An interceptor installed on a path prefix.  Its before and after logic
is modelled by trace events (in the source, the "/api" middleware prints a
line before calling the next link and a line after it returns). -/
structure Middleware where
  scopePath : String
  beforeTag : String
  afterTag : String

/-- Modelled from the spec: a prefix-installed interceptor applies to a
request when its prefix is a path-prefix of the request path. -/
def applies (m : Middleware) (path : String) : Bool :=
  isPrefixOfChars m.scopePath.data path.data

/-- Modelled from the spec: running a middleware chain around an inner
trace.  Each link contributes its before event, then the rest of the
chain and the terminal handler run, then its after event follows (classic
nested onion composition). -/
def runChain : List Middleware → List String → List String
  | [], inner => inner
  | m :: rest, inner => m.beforeTag :: runChain rest inner ++ [m.afterTag]

/-- Modelled from the spec: the trace of a request through the installed
middleware: exactly the interceptors whose prefix applies to the path
wrap the inner trace, in registration order. -/
def middlewareTrace (ms : List Middleware) (path : String) (inner : List String) : List String :=
  runChain (ms.filter (fun m => applies m path)) inner

/-- The middleware installed on "/api" in the source's main function; the
tags stand for its two print statements. -/
def apiMiddleware : Middleware :=
  { scopePath := "/api",
    beforeTag := "middleware before processing request",
    afterTag := "middleware after processing request" }

/-- Code-point-wise lexicographic comparison of strings as character
lists: the order in which the serialization of a string-keyed map emits
its keys. -/
def charListLE : List Char → List Char → Bool
  | [], _ => true
  | _ :: _, [] => false
  | c :: cs, d :: ds =>
    if c.toNat < d.toNat then true
    else if d.toNat < c.toNat then false
    else charListLE cs ds

/-- Key order of two map entries. -/
def keyLE (a b : String × String) : Bool :=
  charListLE a.1.data b.1.data

/-- Sort a key-to-value list by its string keys. -/
def sortByKey (l : List (String × String)) : List (String × String) :=
  List.insertionSort (fun a b => keyLE a b = true) l

/-- One serialized JSON object member. -/
def jsonField (kv : String × String) : String :=
  "\"" ++ kv.1 ++ "\":\"" ++ kv.2 ++ "\""

/-- Modelled from the spec: serializing a string-keyed map emits the
members in sorted key order, deterministically (the JSON library sorting
map keys is not part of this repository's source). -/
def serializeMap (l : List (String × String)) : String :=
  "\x7b" ++ String.intercalate "," ((sortByKey l).map jsonField) ++ "\x7d"

/-- Handler of GET /user from the source: respond with the JSON
serialization of the map with entries username and name. -/
def userHandler (_ : Request) (_ : Params) : Except String Response :=
  Except.ok { status := 200,
              body := serializeMap [("username", "roni"), ("name", "Roni Purwanto")] }

/-- The GET /user route from the source. -/
def userRoute : Route :=
  { method := "GET", pattern := "/user", handler := userHandler }

/-- The key comparison is total. -/
theorem charListLE_total :
    ∀ xs ys : List Char, charListLE xs ys = true ∨ charListLE ys xs = true
  | [], _ => Or.inl rfl
  | _ :: _, [] => Or.inr rfl
  | x :: xs, y :: ys => by
    by_cases hxy : x.toNat < y.toNat
    · exact Or.inl (by simp [charListLE, hxy])
    · by_cases hyx : y.toNat < x.toNat
      · exact Or.inr (by simp [charListLE, hyx])
      · have h := charListLE_total xs ys
        rcases h with h | h
        · exact Or.inl (by simp [charListLE, hxy, hyx, h])
        · exact Or.inr (by simp [charListLE, hxy, hyx, h])

/-- The key comparison is transitive. -/
theorem charListLE_trans :
    ∀ xs ys zs : List Char, charListLE xs ys = true → charListLE ys zs = true →
      charListLE xs zs = true
  | [], _, _, _, _ => rfl
  | _ :: _, [], _, h₁, _ => by simp [charListLE] at h₁
  | _ :: _, _ :: _, [], _, h₂ => by simp [charListLE] at h₂
  | x :: xs, y :: ys, z :: zs, h₁, h₂ => by
    simp only [charListLE] at h₁ h₂ ⊢
    rcases Nat.lt_trichotomy x.toNat y.toNat with hxy | hxy | hxy
    · rcases Nat.lt_trichotomy y.toNat z.toNat with hyz | hyz | hyz
      · rw [if_pos (Nat.lt_trans hxy hyz)]
      · rw [if_pos (hyz ▸ hxy)]
      · have hn₁ : ¬ y.toNat < z.toNat := by omega
        rw [if_neg hn₁, if_pos hyz] at h₂
        exact Bool.noConfusion h₂
    · have hn₁ : ¬ x.toNat < y.toNat := by omega
      have hn₂ : ¬ y.toNat < x.toNat := by omega
      rw [if_neg hn₁, if_neg hn₂] at h₁
      rcases Nat.lt_trichotomy y.toNat z.toNat with hyz | hyz | hyz
      · rw [if_pos (hxy ▸ hyz)]
      · have hn₃ : ¬ y.toNat < z.toNat := by omega
        have hn₄ : ¬ z.toNat < y.toNat := by omega
        have hn₅ : ¬ x.toNat < z.toNat := by omega
        have hn₆ : ¬ z.toNat < x.toNat := by omega
        rw [if_neg hn₃, if_neg hn₄] at h₂
        rw [if_neg hn₅, if_neg hn₆]
        exact charListLE_trans xs ys zs h₁ h₂
      · have hn₃ : ¬ y.toNat < z.toNat := by omega
        rw [if_neg hn₃, if_pos hyz] at h₂
        exact Bool.noConfusion h₂
    · have hn₁ : ¬ x.toNat < y.toNat := by omega
      rw [if_neg hn₁, if_pos hxy] at h₁
      exact Bool.noConfusion h₁

/-- The key comparison is antisymmetric. -/
theorem charListLE_antisymm :
    ∀ xs ys : List Char, charListLE xs ys = true → charListLE ys xs = true → xs = ys
  | [], [], _, _ => rfl
  | [], _ :: _, _, h₂ => by simp [charListLE] at h₂
  | _ :: _, [], h₁, _ => by simp [charListLE] at h₁
  | x :: xs, y :: ys, h₁, h₂ => by
    simp only [charListLE] at h₁ h₂
    rcases Nat.lt_trichotomy x.toNat y.toNat with hxy | hxy | hxy
    · have hn₁ : ¬ y.toNat < x.toNat := by omega
      rw [if_neg hn₁, if_pos hxy] at h₂
      exact Bool.noConfusion h₂
    · have hn₁ : ¬ x.toNat < y.toNat := by omega
      have hn₂ : ¬ y.toNat < x.toNat := by omega
      rw [if_neg hn₁, if_neg hn₂] at h₁ h₂
      have hx : x = y := Char.ext (UInt32.toNat.inj hxy)
      rw [hx, charListLE_antisymm xs ys h₁ h₂]
    · have hn₁ : ¬ x.toNat < y.toNat := by omega
      rw [if_neg hn₁, if_pos hxy] at h₁
      exact Bool.noConfusion h₁

instance : IsTotal (String × String) (fun a b => keyLE a b = true) :=
  ⟨fun a b => charListLE_total a.1.data b.1.data⟩

instance : IsTrans (String × String) (fun a b => keyLE a b = true) :=
  ⟨fun a b c => charListLE_trans a.1.data b.1.data c.1.data⟩

instance : IsAntisymm (String × String) (fun a b => keyLE a b = true ∧ a.1 ≠ b.1) :=
  ⟨fun _ _ h₁ h₂ => absurd (String.ext (charListLE_antisymm _ _ h₁.1 h₂.1)) h₁.2⟩

/-- Claim C1: whenever the matched route's handler raises an error, the
server produces exactly one response (dispatch is a total function into a
single Response), with status 500 and body "Error: " followed by the
error's message, as produced by the source's ErrorHandler. -/
theorem handler_error_single_500 (routes : List Route) (req : Request) (r : Route)
    (ps : Params) (msg : String)
    (hfind : findRoute routes req = some (r, ps))
    (herr : r.handler req ps = Except.error msg) :
    dispatch errorHandler routes req = { status := 500, body := "Error: " ++ msg } := by
  unfold dispatch
  rw [hfind]
  show finalize errorHandler (r.handler req ps) = _
  rw [herr]
  rfl

/-- Witness for C1: the GET /error route of the source raises "Ups" and
the response is status 500 with body "Error: Ups". -/
theorem handler_error_single_500_witness :
    dispatch errorHandler [errorRoute] (mkReq "GET" "/error") =
      { status := 500, body := "Error: Ups" } :=
  handler_error_single_500 [errorRoute] (mkReq "GET" "/error") errorRoute [] "Ups" rfl rfl

/-- Claim C5: a request matching no registered route yields the terminal
not-found response (status 404, empty body), and the error boundary is
never invoked: the result does not depend on the boundary at all. -/
theorem unmatched_not_found (routes : List Route) (req : Request)
    (h : findRoute routes req = none) (b b' : String → Response) :
    dispatch b routes req = notFoundResponse ∧
    dispatch b routes req = dispatch b' routes req := by
  unfold dispatch
  rw [h]
  exact ⟨rfl, rfl⟩

/-- Witness for C5: GET /missing matches no route of the registry holding
only the /error route; the result is the 404 response under the source
boundary and under a replacement boundary alike. -/
theorem unmatched_not_found_witness :
    dispatch errorHandler [errorRoute] (mkReq "GET" "/missing") = notFoundResponse ∧
    dispatch errorHandler [errorRoute] (mkReq "GET" "/missing") =
      dispatch (fun _ => notFoundResponse) [errorRoute] (mkReq "GET" "/missing") :=
  unmatched_not_found [errorRoute] (mkReq "GET" "/missing") rfl errorHandler
    (fun _ => notFoundResponse)

/-- Claim C8: on GET /hello, an absent query parameter "name" yields the
declared default, body "Hello Guest"; a present parameter with value v
yields body "Hello " followed by v; status 200 in both cases. -/
theorem hello_query_default (q : List (String × String)) :
    (List.lookup "name" q = none →
      dispatch errorHandler [helloRoute] (helloReq q) =
        { status := 200, body := "Hello Guest" }) ∧
    (∀ v : String, List.lookup "name" q = some v →
      dispatch errorHandler [helloRoute] (helloReq q) =
        { status := 200, body := "Hello " ++ v }) := by
  constructor
  · intro h
    show finalize errorHandler (helloHandler (helloReq q) []) = _
    simp [helloHandler, queryDefault, helloReq, h, finalize]
  · intro v h
    show finalize errorHandler (helloHandler (helloReq q) []) = _
    simp [helloHandler, queryDefault, helloReq, h, finalize]

/-- Witness for C8: no query gives "Hello Guest"; query name=roni gives
"Hello roni". -/
theorem hello_query_default_witness :
    dispatch errorHandler [helloRoute] (helloReq []) =
      { status := 200, body := "Hello Guest" } ∧
    dispatch errorHandler [helloRoute] (helloReq [("name", "roni")]) =
      { status := 200, body := "Hello roni" } :=
  ⟨(hello_query_default []).1 rfl,
   (hello_query_default [("name", "roni")]).2 "roni" rfl⟩

/-- The segment matcher succeeds exactly under the spec's segment rule:
equal segment counts, each parameter segment sees a non-empty literal,
each literal segment matches exactly. -/
theorem segMatch_isSome_iff :
    ∀ ps ss : List String,
      (segMatch ps ss).isSome = true ↔
        List.Forall₂ (fun p s => if isParam p then s ≠ "" else p = s) ps ss := by
  intro ps
  induction ps with
  | nil =>
    intro ss
    cases ss with
    | nil => simp [segMatch]
    | cons s ss => simp [segMatch]
  | cons p ps ih =>
    intro ss
    cases ss with
    | nil => simp [segMatch]
    | cons s ss =>
      simp only [segMatch, List.forall₂_cons]
      by_cases hp : isParam p = true
      · by_cases hs : s = ""
        · subst hs
          simp [hp]
        · simp [hp, hs, ih ss]
      · by_cases hps : p = s
        · subst hps
          simp [hp, ih ss]
        · simp [hp, hps]

/-- On success the segment matcher returns exactly the parameter-marked
positions, each parameter name paired with the path segment standing in
its position. -/
theorem segMatch_bindings :
    ∀ (ps ss : List String) (bs : Params), segMatch ps ss = some bs →
      bs = (List.zip ps ss).filterMap
        (fun q => if isParam q.1 then some (paramName q.1, q.2) else none) := by
  intro ps
  induction ps with
  | nil =>
    intro ss bs h
    cases ss with
    | nil =>
      simp [segMatch] at h
      subst h
      simp
    | cons s ss => simp [segMatch] at h
  | cons p ps ih =>
    intro ss bs h
    cases ss with
    | nil => simp [segMatch] at h
    | cons s ss =>
      simp only [segMatch] at h
      by_cases hp : isParam p = true
      · rw [if_pos hp] at h
        by_cases hs : s = ""
        · rw [if_pos hs] at h
          exact absurd h (by simp)
        · rw [if_neg hs] at h
          cases hrec : segMatch ps ss with
          | none =>
            rw [hrec] at h
            simp at h
          | some bs₀ =>
            rw [hrec] at h
            simp only [Option.map_some', Option.some.injEq] at h
            rw [← h]
            simp [List.zip_cons_cons, hp, ih ss bs₀ hrec]
      · rw [if_neg hp] at h
        by_cases hps : p = s
        · rw [if_pos hps] at h
          rw [ih ss bs h]
          simp [List.zip_cons_cons, hp]
        · rw [if_neg hps] at h
          exact absurd h (by simp)

/-- Claim C2 (amended): the Path Matcher matches exactly when splitting
pattern and path by the separator gives equally many segments, every
parameter segment binds a non-empty literal segment and every literal
segment matches exactly; a segment with interior whitespace is one opaque
unit.  On the test's concrete input, the third path segment "orders "
differs from the literal pattern segment "orders", so the rule decides
no-match (the request cannot yield status 200 with bindings). -/
theorem match_rule_and_whitespace :
    (∀ pattern path : String,
      (matchPattern pattern path).isSome = true ↔
        List.Forall₂ (fun p s => if isParam p then s ≠ "" else p = s)
          (splitPath pattern) (splitPath path)) ∧
    matchPattern "/user/:userId/orders/:orderId" "/user/1/orders /12345" = none :=
  ⟨fun _ _ => segMatch_isSome_iff _ _, rfl⟩

/-- Counterexample for C2 as stated: on the concrete input of the test the
matcher yields no match, and dispatch yields the terminal 404 response,
not status 200 with parameter bindings. -/
theorem whitespace_path_no_match :
    matchPattern "/user/:userId/orders/:orderId" "/user/1/orders /12345" = none ∧
    dispatch errorHandler [orderRoute] (mkReq "GET" "/user/1/orders /12345") =
      notFoundResponse ∧
    (dispatch errorHandler [orderRoute] (mkReq "GET" "/user/1/orders /12345")).status ≠ 200 :=
  ⟨rfl, rfl, by decide⟩

/-- Claim C3: a successful match populates exactly the pattern's named
parameters, in name-to-position correspondence with the path's literal
segments, and dispatch invokes the handler with exactly these bindings
(they are populated before handler invocation). -/
theorem params_populated (pattern path : String) (bs : Params)
    (h : matchPattern pattern path = some bs) :
    bs = (List.zip (splitPath pattern) (splitPath path)).filterMap
        (fun q => if isParam q.1 then some (paramName q.1, q.2) else none) ∧
    ∀ (m : String) (hd : Request → Params → Except String Response),
      dispatch errorHandler [{ method := m, pattern := pattern, handler := hd }]
          (mkReq m path) =
        finalize errorHandler (hd (mkReq m path) bs) := by
  refine ⟨segMatch_bindings _ _ _ h, ?_⟩
  intro m hd
  have hfr : findRoute [{ method := m, pattern := pattern, handler := hd }] (mkReq m path) =
      some ({ method := m, pattern := pattern, handler := hd }, bs) := by
    simp only [findRoute, mkReq]
    rw [if_pos trivial, h]
  unfold dispatch
  rw [hfr]

/-- Witness for C3: the parameterized route from the source, on the path
/user/1/orders/12345, answers with both bindings substituted. -/
theorem params_populated_witness :
    dispatch errorHandler [orderRoute] (mkReq "GET" "/user/1/orders/12345") =
      { status := 200, body := "Get Order 12345 From 1" } := by
  have h := (params_populated "/user/:userId/orders/:orderId" "/user/1/orders/12345"
    [("userId", "1"), ("orderId", "12345")] rfl).2 "GET" orderHandler
  exact h.trans rfl

set_option maxRecDepth 10000 in
/-- Claim C4: decoding the JSON, form-urlencoded and XML register bodies
of the source tests through the content-type dispatch table yields the
same decoded username "Roni", and the POST /register handler responds
"Register Roni success" for all three. -/
theorem body_decoders_agree :
    (decodeBody "application/json" jsonRegisterBody).bind (List.lookup "username") =
      some "Roni" ∧
    (decodeBody "application/x-www-form-urlencoded" formRegisterBody).bind
      (List.lookup "username") = some "Roni" ∧
    (decodeBody "application/xml" xmlRegisterBody).bind (List.lookup "username") =
      some "Roni" ∧
    dispatch errorHandler [registerRoute]
        (postReq "/register" "application/json" jsonRegisterBody) =
      { status := 200, body := "Register Roni success" } ∧
    dispatch errorHandler [registerRoute]
        (postReq "/register" "application/x-www-form-urlencoded" formRegisterBody) =
      { status := 200, body := "Register Roni success" } ∧
    dispatch errorHandler [registerRoute]
        (postReq "/register" "application/xml" xmlRegisterBody) =
      { status := 200, body := "Register Roni success" } :=
  ⟨rfl, rfl, rfl, rfl, rfl, rfl⟩

/-- Claim C9: for every request whose body is malformed for its declared
content type, the decode step fails and the handler returns the decode
error (carrying the content type and a cause); the error reaches the
global error boundary, which produces the single 500 response with the
"Error: " prefix (dispatch applies the boundary exactly once and returns
exactly one response; no decoder retry exists).  The first part covers
POST /login (raw JSON unmarshal), the second POST /register (decode
through the content-type dispatch table, for every declared content
type). -/
theorem malformed_body_500 :
    (∀ body : String, jsonParse body = none →
      dispatch errorHandler [loginRoute] (postReq "/login" "application/json" body) =
        errorHandler (decodeError "application/json" "invalid JSON body") ∧
      (dispatch errorHandler [loginRoute] (postReq "/login" "application/json" body)).status =
        500) ∧
    (∀ ct body : String, decodeBody ct body = none →
      dispatch errorHandler [registerRoute] (postReq "/register" ct body) =
        errorHandler (decodeError ct "malformed body") ∧
      (dispatch errorHandler [registerRoute] (postReq "/register" ct body)).status = 500) := by
  constructor
  · intro body h
    have h1 : dispatch errorHandler [loginRoute] (postReq "/login" "application/json" body) =
        errorHandler (decodeError "application/json" "invalid JSON body") := by
      show finalize errorHandler (loginHandler (postReq "/login" "application/json" body) []) = _
      simp only [loginHandler, postReq]
      rw [h]
      rfl
    exact ⟨h1, by rw [h1]; rfl⟩
  · intro ct body h
    have h1 : dispatch errorHandler [registerRoute] (postReq "/register" ct body) =
        errorHandler (decodeError ct "malformed body") := by
      show finalize errorHandler (registerHandler (postReq "/register" ct body) []) = _
      simp only [registerHandler, postReq]
      rw [h]
      rfl
    exact ⟨h1, by rw [h1]; rfl⟩

/-- Witness for C9: the truncated JSON body consisting of a single
opening brace fails the /login decode, and the truncated XML body
consisting of a single opening angle bracket fails the /register decode
under the declared content type application/xml; both yield the 500
boundary response. -/
theorem malformed_body_500_witness :
    (dispatch errorHandler [loginRoute] (postReq "/login" "application/json" "\x7b") =
      errorHandler (decodeError "application/json" "invalid JSON body") ∧
    (dispatch errorHandler [loginRoute] (postReq "/login" "application/json" "\x7b")).status =
      500) ∧
    (dispatch errorHandler [registerRoute] (postReq "/register" "application/xml" "<") =
      errorHandler (decodeError "application/xml" "malformed body") ∧
    (dispatch errorHandler [registerRoute]
        (postReq "/register" "application/xml" "<")).status = 500) :=
  ⟨malformed_body_500.1 "\x7b" rfl, malformed_body_500.2 "application/xml" "<" rfl⟩

/-- Claim C6: a prefix-installed interceptor runs for every request whose
path lies under the prefix and never for a path outside it; interceptors
wrap the terminal handler in registration order, the first-registered
before logic running first and its after logic running last (onion
composition); in particular the /api middleware of the source wraps
GET /api/hello and sits out for a path outside /api. -/
theorem middleware_onion :
    (∀ (ms : List Middleware) (inner : List String),
      runChain ms inner =
        ms.map Middleware.beforeTag ++ inner ++ ms.reverse.map Middleware.afterTag) ∧
    (∀ (m : Middleware) (path : String) (inner : List String),
      applies m path = true →
      middlewareTrace [m] path inner = m.beforeTag :: inner ++ [m.afterTag]) ∧
    (∀ (m : Middleware) (path : String) (inner : List String),
      applies m path = false → middlewareTrace [m] path inner = inner) ∧
    (∀ (a b : Middleware) (path : String) (inner : List String),
      applies a path = true → applies b path = true →
      middlewareTrace [a, b] path inner =
        a.beforeTag :: b.beforeTag :: inner ++ [b.afterTag, a.afterTag]) ∧
    middlewareTrace [apiMiddleware] "/api/hello" ["handler"] =
      [apiMiddleware.beforeTag, "handler", apiMiddleware.afterTag] ∧
    middlewareTrace [apiMiddleware] "/hello" ["handler"] = ["handler"] := by
  refine ⟨?_, ?_, ?_, ?_, rfl, rfl⟩
  · intro ms inner
    induction ms with
    | nil => simp [runChain]
    | cons m rest ih => simp [runChain, ih]
  · intro m path inner h
    simp [middlewareTrace, List.filter, h, runChain]
  · intro m path inner h
    simp [middlewareTrace, List.filter, h, runChain]
  · intro a b path inner ha hb
    simp [middlewareTrace, List.filter, ha, hb, runChain]

/-- Witness for C6: two interceptors on /api around GET /api/hello run in
onion order: first before, second before, handler, second after, first
after. -/
theorem middleware_onion_witness :
    middlewareTrace [apiMiddleware, apiMiddleware] "/api/hello" ["handler"] =
      apiMiddleware.beforeTag :: apiMiddleware.beforeTag ::
        ["handler"] ++ [apiMiddleware.afterTag, apiMiddleware.afterTag] :=
  middleware_onion.2.2.2.1 apiMiddleware apiMiddleware "/api/hello" ["handler"] rfl rfl

/-- For a pattern with no parameter segments, the matcher succeeds exactly
when the path's segments equal the pattern's segments. -/
theorem segMatch_literal :
    ∀ ps ss : List String, (∀ s ∈ ps, isParam s = false) →
      ((segMatch ps ss).isSome = true ↔ ss = ps) := by
  intro ps
  induction ps with
  | nil =>
    intro ss _
    cases ss with
    | nil => simp [segMatch]
    | cons s ss => simp [segMatch]
  | cons p ps ih =>
    intro ss hlit
    cases ss with
    | nil => simp [segMatch]
    | cons s ss =>
      have hp : isParam p = false := hlit p (by simp)
      have htail : ∀ s ∈ ps, isParam s = false := fun x hx => hlit x (by simp [hx])
      by_cases hps : p = s
      · subst hps
        simp [segMatch, hp, ih ss htail]
      · simp [segMatch, hp, hps]
        exact fun h _ => hps h.symm

/-- Claim C7: registering through a group prepends the group's prefix to
the route's sub-path, and a handler so registered is reachable at exactly
the concatenated path: a parameter-free pattern matches precisely the
paths with its own segments, the four group-registered routes of the
source answer 200 "Hello World" at the concatenated paths, and unprefixed
or bare-prefix paths are not found. -/
theorem group_prefix_routing :
    (∀ (p sub : String) (h : Request → Params → Except String Response),
      (groupGet p sub h).pattern = p ++ sub) ∧
    (∀ pattern path : String, (∀ s ∈ splitPath pattern, isParam s = false) →
      ((matchPattern pattern path).isSome = true ↔ splitPath path = splitPath pattern)) ∧
    dispatch errorHandler groupRoutes (mkReq "GET" "/api/hello") =
      { status := 200, body := "Hello World" } ∧
    dispatch errorHandler groupRoutes (mkReq "GET" "/api/world") =
      { status := 200, body := "Hello World" } ∧
    dispatch errorHandler groupRoutes (mkReq "GET" "/web/hello") =
      { status := 200, body := "Hello World" } ∧
    dispatch errorHandler groupRoutes (mkReq "GET" "/web/world") =
      { status := 200, body := "Hello World" } ∧
    dispatch errorHandler groupRoutes (mkReq "GET" "/hello") = notFoundResponse ∧
    dispatch errorHandler groupRoutes (mkReq "GET" "/api") = notFoundResponse :=
  ⟨fun _ _ _ => rfl, fun _ path h => segMatch_literal _ (splitPath path) h,
   rfl, rfl, rfl, rfl, rfl, rfl⟩

/-- Witness for C7: the concatenated pattern of the /api group's /hello
route is parameter-free and matches precisely the path /api/hello. -/
theorem group_prefix_routing_witness :
    (matchPattern ("/api" ++ "/hello") "/api/hello").isSome = true :=
  (group_prefix_routing.2.1 ("/api" ++ "/hello") "/api/hello" (by decide)).mpr (by decide)

/-- Two permutations of the same string-keyed map with distinct keys have
the same key-sorted form. -/
theorem sortByKey_perm_eq (l l' : List (String × String)) (hp : l.Perm l')
    (hnd : (l.map Prod.fst).Nodup) : sortByKey l = sortByKey l' := by
  have hperm : (sortByKey l).Perm (sortByKey l') :=
    (List.perm_insertionSort _ l).trans (hp.trans (List.perm_insertionSort _ l').symm)
  have hs₁ : List.Sorted (fun a b : String × String => keyLE a b = true) (sortByKey l) :=
    List.sorted_insertionSort _ l
  have hs₂ : List.Sorted (fun a b : String × String => keyLE a b = true) (sortByKey l') :=
    List.sorted_insertionSort _ l'
  have hnd₁ : ((sortByKey l).map Prod.fst).Nodup :=
    (((List.perm_insertionSort _ l).map Prod.fst).nodup_iff).mpr hnd
  have hnd₂ : ((sortByKey l').map Prod.fst).Nodup :=
    (((List.perm_insertionSort _ l').map Prod.fst).nodup_iff).mpr
      (((hp.map Prod.fst).nodup_iff).mp hnd)
  have hne₁ : (sortByKey l).Pairwise (fun a b => a.1 ≠ b.1) :=
    List.pairwise_map.mp hnd₁
  have hne₂ : (sortByKey l').Pairwise (fun a b => a.1 ≠ b.1) :=
    List.pairwise_map.mp hnd₂
  have hlt₁ : (sortByKey l).Pairwise
      (fun a b : String × String => keyLE a b = true ∧ a.1 ≠ b.1) :=
    List.Pairwise.imp₂ (fun _ _ hle hne => ⟨hle, hne⟩) hs₁ hne₁
  have hlt₂ : (sortByKey l').Pairwise
      (fun a b : String × String => keyLE a b = true ∧ a.1 ≠ b.1) :=
    List.Pairwise.imp₂ (fun _ _ hle hne => ⟨hle, hne⟩) hs₂ hne₂
  exact List.eq_of_perm_of_sorted hperm hlt₁ hlt₂

set_option maxRecDepth 10000 in
/-- Claim C10: serializing a string-keyed map emits its members in sorted
key order, so the output depends only on the map's contents (any
enumeration order of the entries serializes identically, on every run),
and GET /user always produces exactly the body with name before
username. -/
theorem json_map_deterministic :
    (∀ l l' : List (String × String), l.Perm l' → (l.map Prod.fst).Nodup →
      serializeMap l = serializeMap l') ∧
    dispatch errorHandler [userRoute] (mkReq "GET" "/user") =
      { status := 200, body := "\x7b\"name\":\"Roni Purwanto\",\"username\":\"roni\"\x7d" } := by
  constructor
  · intro l l' hp hnd
    unfold serializeMap
    rw [sortByKey_perm_eq l l' hp hnd]
  · rfl

/-- Witness for C10: the two enumeration orders of the user map serialize
to the same body. -/
theorem json_map_deterministic_witness :
    serializeMap [("username", "roni"), ("name", "Roni Purwanto")] =
      serializeMap [("name", "Roni Purwanto"), ("username", "roni")] :=
  json_map_deterministic.1 _ _ (List.Perm.swap _ _ _) (by decide)

end GolangFiber
